import Mathlib

/-
Shallow embedding of NiMARE's diagnostics module (nimare/diagnostics.py):
the Jackknife and FocusCounter per-study contribution computations, the
top-level transform control flow, and the FocusFilter coordinate filter.
External collaborators that live outside this module (estimator fitting,
the cluster-extraction utility, nilearn maskers, the mm-to-voxel mapper)
are modelled as function parameters or small abstractions, so every
theorem below is about the control flow and arithmetic that the module
itself performs.
-/

namespace NiMARE

/-- Integer voxel-grid index, as produced by mm2vox or np.where. -/
abbrev Vox : Type := ℤ × ℤ × ℤ

/-- World-space (millimeter) coordinate triple. -/
abbrev World : Type := ℚ × ℚ × ℚ

/-- IEEE-style extended value produced by numpy's true_divide on finite
operands: a finite rational, a signed infinity, or NaN. -/
inductive FVal where
  | finite (q : ℚ)
  | posInf
  | negInf
  | nan
deriving DecidableEq

/-- numpy's true_divide on finite operands (diagnostics.py line 219, under
errstate(divide="ignore", invalid="ignore")): x/0 yields a signed infinity
for x nonzero, 0/0 yields NaN, and finite quotients are modelled exactly
as rationals. -/
def trueDivide (a b : ℚ) : FVal :=
  if b = 0 then
    if a = 0 then FVal.nan
    else if 0 < a then FVal.posInf
    else FVal.negInf
  else FVal.finite (a / b)

/-- The largest finite double, 1.7976931348623157e308 = 2^1024 - 2^971:
np.nan_to_num's default replacement for positive infinity. -/
def maxFloat : ℚ := 2 ^ 1024 - 2 ^ 971

/-- np.nan_to_num with default arguments (diagnostics.py line 220): NaN
becomes 0, and the infinities are clamped to the extreme finite doubles. -/
def nanToNum : FVal → ℚ
  | FVal.finite q => q
  | FVal.posInf => maxFloat
  | FVal.negInf => -maxFloat
  | FVal.nan => 0

/-- One voxel of Jackknife._transform (diagnostics.py lines 217-222): the
proportional value after removing a study is
1 - nan_to_num(true_divide(temp_stat_val, stat_val)). -/
def voxelContribution (tempStat stat : ℚ) : ℚ :=
  1 - nanToNum (trueDivide tempStat stat)

/-- The voxelwise array 1 - nan_to_num(true_divide(temp_stat_vals,
stat_values)) of Jackknife._transform, with the two flattened value maps
given as aligned lists. -/
def voxelProps (tempStatVals statValues : List ℚ) : List ℚ :=
  List.zipWith voxelContribution tempStatVals statValues

/-- The values of a flattened array that fall inside the cluster labelled
`cid` of a flattened label map. -/
def selectedVals (labels : List ℕ) (vals : List ℚ) (cid : ℕ) : List ℚ :=
  ((labels.zip vals).filter (fun p => p.1 == cid)).map Prod.snd

/-- Mean of a cluster's values: models the NiftiLabelsMasker transform of
diagnostics.py line 233 (an external nilearn collaborator), which the spec
describes as the per-cluster-label averaging transform, mapping a
full-volume value array to the mean value over each cluster's voxels. -/
def clusterMean (labels : List ℕ) (vals : List ℚ) (cid : ℕ) : ℚ :=
  (selectedVals labels vals cid).sum / (selectedVals labels vals cid).length

/-- np.unique of a flattened label array: the distinct values in ascending
order. -/
def npUnique (l : List ℕ) : List ℕ :=
  l.dedup.insertionSort (fun a b => a ≤ b)

/-- The cluster ids `np.unique(label_map)[1:]` of diagnostics.py lines 158
and 396: the sorted distinct labels with the smallest (the 0 background)
dropped. -/
def clusterIdsOfLabels (labels : List ℕ) : List ℕ :=
  (npUnique labels).drop 1

/-- Jackknife's contribution value for one study and one cluster: the
cluster mean of the voxelwise proportional values (diagnostics.py lines
217-233). -/
def jackknifeContribution (labels : List ℕ) (statValues tempStatVals : List ℚ)
    (cid : ℕ) : ℚ :=
  clusterMean labels (voxelProps tempStatVals statValues) cid

/-- The row of per-cluster contribution values one Jackknife._transform
call produces for a study (the cluster_masker.transform output of line
233, one mean per sorted nonzero cluster label). -/
def jackknifeStudyRow (labels : List ℕ) (statValues tempStatVals : List ℚ) :
    List ℚ :=
  (clusterIdsOfLabels labels).map (jackknifeContribution labels statValues tempStatVals)

/-- Squared Euclidean distance between two voxel indices. scipy's cdist in
FocusCounter._transform (line 402) computes the Euclidean distance, which
the code then compares against 1; since both sides are nonnegative and
squaring is monotone, distance < 1 holds exactly when the squared distance
is < 1, which is the comparison embedded here (avoiding irrational
arithmetic). -/
def sqDist (a b : Vox) : ℤ :=
  (a.1 - b.1) ^ 2 + (a.2.1 - b.2.1) ^ 2 + (a.2.2 - b.2.2) ^ 2

/-- One row of a coordinates DataFrame consumed by FocusCounter: a study
id and a world-space peak coordinate. -/
structure FocusRow where
  id : String
  x : ℚ
  y : ℚ
  z : ℚ
deriving DecidableEq

/-- FocusCounter._transform (diagnostics.py lines 392-408): select the
study's coordinate rows, convert them to voxel indices (mm2vox lives in
nimare.utils, outside this module, so the conversion arrives as the
`toVoxFn` parameter), and for each sorted nonzero cluster label count the
peaks whose Euclidean distance to some voxel of that cluster is < 1. The
label volume arrives as its array entries, (voxel index, label) pairs. -/
def FocusCounter.transformStudy (toVoxFn : World → Vox)
    (coordinates : List FocusRow) (expid : String)
    (labelArr : List (Vox × ℕ)) : List ℕ :=
  let ijk := (coordinates.filter (fun r => r.id == expid)).map
    (fun r => toVoxFn (r.x, r.y, r.z))
  (clusterIdsOfLabels (labelArr.map Prod.snd)).map (fun c =>
    let clusterIdx := (labelArr.filter (fun q => q.2 == c)).map Prod.fst
    ijk.countP (fun p => clusterIdx.any (fun v => sqDist v p < 1)))

/-- Written from the words of claim C2 (not from the source), for
comparison with FocusCounter.transformStudy: count the peaks whose
Euclidean distance to some voxel of the cluster is at most 1 (squared
distance ≤ 1), so a face-touching peak is counted. -/
def focusCounterStudyClaim (toVoxFn : World → Vox)
    (coordinates : List FocusRow) (expid : String)
    (labelArr : List (Vox × ℕ)) : List ℕ :=
  let ijk := (coordinates.filter (fun r => r.id == expid)).map
    (fun r => toVoxFn (r.x, r.y, r.z))
  (clusterIdsOfLabels (labelArr.map Prod.snd)).map (fun c =>
    let clusterIdx := (labelArr.filter (fun q => q.2 == c)).map Prod.fst
    ijk.countP (fun p => clusterIdx.any (fun v => sqDist v p ≤ 1)))

/-- Error kinds a diagnostic transform can surface. The module raises
AttributeError (missing estimator dataset, lines 105-110 and 317-322) and
ValueError (missing target map, lines 122-125 and 333-336);
configurationError is the error kind the spec's error-handling design
names for the first situation, included so claim C3 can be stated. -/
inductive DiagError where
  | attributeError (msg : String)
  | valueError (msg : String)
  | configurationError (msg : String)
deriving DecidableEq

/-- Whether a transform outcome is the spec's ConfigurationError kind. -/
def errIsConfiguration {α : Type} : Except DiagError α → Bool
  | Except.error (DiagError.configurationError _) => true
  | _ => false

/-- The estimator attached to a MetaResult, as the module sees it: whether
it retains a fitting dataset (hasattr check), its post-filter study ids
(inputs_["id"]) and its coordinates table (inputs_["coordinates"]). The
retained dataset itself is consumed only through the abstracted
leave-one-out refit oracle, so its contents are not modelled. -/
structure EstimatorModel where
  dataset : Option Unit
  inputIds : List String
  inputCoordinates : List FocusRow

/-- A MetaResult, as the module sees it: the estimator and the named map
collection, each map given as its flattened voxel value array (the
collaborator get_map is modelled as association-list lookup). -/
structure MetaResult where
  estimator : EstimatorModel
  maps : List (String × List ℚ)

/-- The AttributeError message of diagnostics.py lines 106-110 and 318-322
(the FocusCounter copy reuses the Jackknife wording verbatim). -/
def jkAttrErrorMsg : String :=
  "MetaResult was not generated by an Estimator with a `dataset` attribute. This may be because the Estimator was a pairwise Estimator. The Jackknife method does not currently work with pairwise Estimators."

/-- A single-quote character, written by code point to keep source strings
free of quote literals. -/
def squote : String := String.mk [Char.ofNat 39]

/-- One entry of the available_maps list (line 121): the map name wrapped
in single quotes. -/
def quoteName (m : String) : String := squote ++ m ++ squote

/-- Python's ", ".flatten over a list of strings. -/
def commaJoin : List String → String
  | [] => ""
  | [s] => s
  | s :: t :: rest => s ++ ", " ++ commaJoin (t :: rest)

/-- The ValueError message of diagnostics.py lines 122-125 (and 333-336):
it names the requested target image and enumerates the quoted names of
the maps actually present in the result. -/
def targetNotPresentMsg (target : String) (names : List String) : String :=
  "Target image (" ++ squote ++ target ++ squote ++
    ") not present in result. Available maps in result are: " ++
    commaJoin (names.map quoteName) ++ "."

/-- The value-map choice of diagnostics.py lines 129-134: prefer "est",
else "stat", else "z". -/
def pickValueMapName (maps : List (String × List ℚ)) : String :=
  if (List.lookup "est" maps).isSome then "est"
  else if (List.lookup "stat" maps).isSome then "stat"
  else "z"

/-- Jackknife configuration (diagnostics.py lines 67-75). The n_cores
field only bounds joblib parallelism, which the embedding models as a
pure map over study ids, so it is omitted. -/
structure Jackknife where
  target_image : String
  voxel_thresh : Option ℚ

/-- What Jackknife.transform returns (plus its logged warnings): the
contribution table as its id column paired with each study row's values,
its data column names, the row count of the clusters table, and the label
maps (flattened). -/
structure JKOutput where
  contribRows : List (String × List ℚ)
  contribCols : List String
  clustersRows : ℕ
  labelMaps : List (List ℕ)
  warnings : List String
deriving DecidableEq

/-- Jackknife._transform for one study (diagnostics.py lines 195-234):
the leave-one-out steps — deep-copying the estimator, slicing the dataset
to the other ids, re-fitting, and masking the re-fit value map — are all
collaborator calls outside this module and arrive as the `refit` oracle
giving the N-1 flattened value map; the module's own arithmetic is
jackknifeStudyRow. Returns the (study id, per-cluster values) pair. -/
def Jackknife.transformStudy (expid : String) (refit : String → List ℚ)
    (statValues : List ℚ) (labels : List ℕ) : String × List ℚ :=
  (expid, jackknifeStudyRow labels statValues (refit expid))

/-- Jackknife.transform (diagnostics.py lines 77-193). The cluster
extraction utility _get_clusters_table lives in nimare.utils, outside
this module, and arrives as the `extract` parameter, returning the
clusters-table row count and the flattened label maps. Rows keyed by
study id mirror the loc[expid] assembly of lines 186-187; the per-sign
tables are concatenated row-wise (line 191). -/
def Jackknife.transform (j : Jackknife)
    (extract : List ℚ → ℚ → Bool → ℕ × List (List ℕ))
    (refit : String → List ℚ)
    (result : MetaResult) : Except DiagError JKOutput :=
  match result.estimator.dataset with
  | none => Except.error (DiagError.attributeError jkAttrErrorMsg)
  | some _ =>
    match List.lookup j.target_image result.maps with
    | none =>
        Except.error (DiagError.valueError
          (targetNotPresentMsg j.target_image (result.maps.map Prod.fst)))
    | some targetArr =>
        let statValues := (List.lookup (pickValueMapName result.maps) result.maps).getD []
        let rows := result.estimator.inputIds
        let twoSided := targetArr.any (fun v => v < 0)
        let statThreshold := j.voxel_thresh.getD 0
        let extracted := extract targetArr statThreshold twoSided
        if extracted.1 = 0 then
          Except.ok { contribRows := rows.map (fun s => (s, ([] : List ℚ))),
                      contribCols := [],
                      clustersRows := 0,
                      labelMaps := extracted.2,
                      warnings := ["No clusters found"] }
        else
          let signs : List ℤ := if extracted.2.length = 2 then [1, -1] else [1]
          let perSign := (signs.zip extracted.2).map (fun sl =>
            let cids := clusterIdsOfLabels sl.2
            let colTag := if sl.1 = 1 then "PosTail" else "NegTail"
            (cids.map (fun c => colTag ++ " " ++ toString c),
             rows.map (fun sid => Jackknife.transformStudy sid refit statValues sl.2)))
          Except.ok { contribRows := (perSign.map Prod.snd).flatten,
                      contribCols := (perSign.map Prod.fst).flatten,
                      clustersRows := extracted.1,
                      labelMaps := extracted.2,
                      warnings := [] }

/-- FocusCounter configuration (diagnostics.py lines 279-287), modelled
like Jackknife's. -/
structure FocusCounter where
  target_image : String
  voxel_thresh : Option ℚ

/-- What FocusCounter.transform returns (plus its logged warnings), with
label volumes kept as (voxel index, label) array entries. -/
structure FCOutput where
  contribRows : List (String × List ℕ)
  contribCols : List String
  clustersRows : ℕ
  labelMaps : List (List (Vox × ℕ))
  warnings : List String
deriving DecidableEq

/-- FocusCounter.transform (diagnostics.py lines 289-390): the same
hasattr, target-map and zero-cluster control flow as Jackknife (the
duplicate reporting.get_clusters_table call of line 340 is overwritten at
line 350 and so has no effect in a pure model), with the per-study work
performed by FocusCounter.transformStudy on the estimator's coordinates
using the target image's affine (the `toVoxFn` parameter). -/
def FocusCounter.transform (f : FocusCounter)
    (extract : List ℚ → ℚ → Bool → ℕ × List (List (Vox × ℕ)))
    (toVoxFn : World → Vox)
    (result : MetaResult) : Except DiagError FCOutput :=
  match result.estimator.dataset with
  | none => Except.error (DiagError.attributeError jkAttrErrorMsg)
  | some _ =>
    match List.lookup f.target_image result.maps with
    | none =>
        Except.error (DiagError.valueError
          (targetNotPresentMsg f.target_image (result.maps.map Prod.fst)))
    | some targetArr =>
        let rows := result.estimator.inputIds
        let twoSided := targetArr.any (fun v => v < 0)
        let statThreshold := f.voxel_thresh.getD 0
        let extracted := extract targetArr statThreshold twoSided
        if extracted.1 = 0 then
          Except.ok { contribRows := rows.map (fun s => (s, ([] : List ℕ))),
                      contribCols := [],
                      clustersRows := 0,
                      labelMaps := extracted.2,
                      warnings := ["No clusters found"] }
        else
          let signs : List ℤ := if extracted.2.length = 2 then [1, -1] else [1]
          let perSign := (signs.zip extracted.2).map (fun sl =>
            let cids := clusterIdsOfLabels (sl.2.map Prod.snd)
            let colTag := if sl.1 = 1 then "PosTail" else "NegTail"
            (cids.map (fun c => colTag ++ " " ++ toString c),
             rows.map (fun sid =>
               (sid, FocusCounter.transformStudy toVoxFn
                       result.estimator.inputCoordinates sid sl.2))))
          Except.ok { contribRows := (perSign.map Prod.snd).flatten,
                      contribCols := (perSign.map Prod.fst).flatten,
                      clustersRows := extracted.1,
                      labelMaps := extracted.2,
                      warnings := [] }

/-- A brain mask as FocusFilter consumes it: the in-mask voxel indices
(np.where over mask_img's data, line 451) and the world-to-voxel mapping
mm2vox(-, mask_img.affine) of line 457 (mm2vox lives in nimare.utils,
outside this module). -/
structure Mask where
  inIjk : List Vox
  toVox : World → Vox

/-- One row of a Dataset's coordinates table. -/
structure CoordRow where
  id : String
  x : ℚ
  y : ℚ
  z : ℚ
deriving DecidableEq

/-- A Dataset as FocusFilter sees it: study ids, image paths, metadata,
the coordinates table, and the Dataset's own masker. -/
structure Dataset where
  ids : List String
  images : List (String × String)
  metadata : List (String × String)
  coordinates : List CoordRow
  masker : Mask

/-- The keep test of diagnostics.py lines 461-465: a coordinate row is
kept when its voxel index appears among the mask's in-brain indices. -/
def keepCoord (m : Mask) (row : CoordRow) : Bool :=
  m.inIjk.contains (m.toVox (row.x, row.y, row.z))

/-- FocusFilter configuration (diagnostics.py lines 429-433): an optional
externally supplied masker. -/
structure FocusFilter where
  masker : Option Mask

/-- FocusFilter.transform (diagnostics.py lines 435-474) as a value-level
function: resolve the masker (self.masker or dataset.masker, line 448)
and keep only the coordinate rows that fall inside the mask (lines
461-472); every other Dataset field is untouched. -/
def FocusFilter.transform (f : FocusFilter) (ds : Dataset) : Dataset :=
  let m := f.masker.getD ds.masker
  { ds with coordinates := ds.coordinates.filter (keepCoord m) }

/-- FocusFilter.transform with Python's reference semantics made
explicit: a store maps references to Dataset values; the call reassigns
the input reference's coordinates table in place (line 472) and returns
that same reference (line 474). -/
def focusFilterTransformRef (f : FocusFilter) (r : ℕ) (store : ℕ → Dataset) :
    ℕ × (ℕ → Dataset) :=
  let newDs := f.transform (store r)
  (r, fun q => if q = r then newDs else store q)

/-- xs occurs contiguously inside ys. -/
def occursIn {α : Type} (xs ys : List α) : Prop :=
  ∃ s t, ys = s ++ xs ++ t

/-- Concrete world-to-voxel mapping used in witnesses: componentwise
floor (it agrees with rounding on the integer-valued inputs used). -/
def vcFloor : World → Vox :=
  fun w => (w.1.floor, w.2.1.floor, w.2.2.floor)

/-- Concrete cluster extractor reporting zero clusters. -/
def extract0 : List ℚ → ℚ → Bool → ℕ × List (List ℕ) := fun _ _ _ => (0, [])

/-- Concrete cluster extractor for FocusCounter reporting zero clusters. -/
def extractF0 : List ℚ → ℚ → Bool → ℕ × List (List (Vox × ℕ)) :=
  fun _ _ _ => (0, [])

/-- Concrete leave-one-out refit oracle returning an empty value map. -/
def refit0 : String → List ℚ := fun _ => []

/-- Concrete Jackknife targeting the "z" map. -/
def cfgZ : Jackknife := { target_image := "z", voxel_thresh := none }

/-- Concrete Jackknife targeting a map name that is absent. -/
def cfgAbsent : Jackknife := { target_image := "absent", voxel_thresh := none }

/-- Concrete FocusCounter targeting the "z" map. -/
def fcfgZ : FocusCounter := { target_image := "z", voxel_thresh := none }

/-- Concrete FocusCounter targeting a map name that is absent. -/
def fcfgAbsent : FocusCounter :=
  { target_image := "absent", voxel_thresh := none }

/-- Concrete MetaResult whose estimator retains no dataset. -/
def resultNoDs : MetaResult :=
  { estimator := { dataset := none, inputIds := ["s1"], inputCoordinates := [] },
    maps := [("z", [1])] }

/-- Concrete MetaResult with maps named "z" and "stat". -/
def resultMaps : MetaResult :=
  { estimator := { dataset := some (), inputIds := ["s1"], inputCoordinates := [] },
    maps := [("z", [1]), ("stat", [2])] }

/-- Concrete MetaResult with two retained studies and a flat "z" map. -/
def resultZero : MetaResult :=
  { estimator := { dataset := some (), inputIds := ["s1", "s2"], inputCoordinates := [] },
    maps := [("z", [0])] }

/-- Concrete label volume: one cluster voxel at the origin labelled 1 and
a background voxel labelled 0. -/
def labelsC2 : List (Vox × ℕ) := [(((0 : ℤ), (0 : ℤ), (0 : ℤ)), 1), (((3 : ℤ), (3 : ℤ), (3 : ℤ)), 0)]

/-- Concrete coordinates table: one peak of study s1 at world (1, 0, 0),
which face-touches the cluster voxel at the origin (distance exactly 1). -/
def coordsC2 : List FocusRow := [{ id := "s1", x := 1, y := 0, z := 0 }]

/-- Concrete coordinate row mapping to voxel (99, 99, 99), outside every
mask used in witnesses. -/
def rowOut : CoordRow := { id := "s1", x := 99, y := 99, z := 99 }

/-- Concrete mask covering only the origin voxel. -/
def maskEx : Mask := { inIjk := [((0 : ℤ), (0 : ℤ), (0 : ℤ))], toVox := vcFloor }

/-- Concrete Dataset: one study with an image, metadata, and a single
out-of-mask coordinate row. -/
def dsEx : Dataset :=
  { ids := ["s1"], images := [("s1", "img1.nii.gz")],
    metadata := [("s1", "meta1")], coordinates := [rowOut], masker := maskEx }

/-- Concrete FocusFilter that defers to the Dataset's own masker. -/
def ffEx : FocusFilter := { masker := none }

theorem voxelContribution_of_ne_zero (t s : ℚ) (hs : s ≠ 0) :
    voxelContribution t s = 1 - t / s := by
  simp [voxelContribution, trueDivide, nanToNum, hs]

theorem voxelContribution_self (b : ℚ) (hb : b ≠ 0) :
    voxelContribution b b = 0 := by
  rw [voxelContribution_of_ne_zero b b hb, div_self hb]
  norm_num

/-- Every pair of a zip against a zipWith comes from a matching pair of
the underlying zip of the two argument lists. -/
theorem mem_zip_zipWith {α β γ δ : Type} (f : α → β → γ) :
    ∀ (ls : List δ) (ta : List α) (tb : List β) (p : δ × γ),
      p ∈ ls.zip (List.zipWith f ta tb) →
      ∃ a b, (p.1, (a, b)) ∈ ls.zip (ta.zip tb) ∧ p.2 = f a b := by
  intro ls
  induction ls with
  | nil => intro ta tb p hp; simp at hp
  | cons l ls ih =>
    intro ta tb p hp
    cases ta with
    | nil => simp at hp
    | cons a ta =>
      cases tb with
      | nil => simp at hp
      | cons b tb =>
        simp only [List.zipWith_cons_cons, List.zip_cons_cons, List.mem_cons] at hp
        cases hp with
        | inl h =>
          refine ⟨a, b, ?_, ?_⟩
          · simp [List.zip_cons_cons, h]
          · rw [h]
        | inr h =>
          obtain ⟨a', b', h1, h2⟩ := ih ta tb p h
          exact ⟨a', b', by simp [List.zip_cons_cons, h1], h2⟩

/-- Claim C1 counterexample: the claim says that wherever the original
statistic value is zero the reduction value is 0, but at a voxel where
both the original and the reduced value are 0 the code turns the 0/0 NaN
ratio into 0 and the contribution 1 - 0 = 1, not 0. -/
theorem c1_counterexample : voxelContribution 0 0 ≠ 0 := by
  norm_num [voxelContribution, trueDivide, nanToNum]

/-- Claim C1 (amended): the per-voxel contribution is
1 - nan_to_num(reduced/original): where the original value is nonzero it
is exactly 1 - reduced/original; where the original value is zero no
error is raised, but the ratio is normalized per nan_to_num — the 0/0 NaN
becomes 0 (contribution 1) and a nonzero/0 infinity is clamped to the
extreme finite double (contribution 1 ∓ maxFloat) — so the contribution
there is never 0. -/
theorem c1_contribution_amended (t s : ℚ) :
    (s ≠ 0 → voxelContribution t s = 1 - t / s) ∧
    (s = 0 → t = 0 → voxelContribution t s = 1) ∧
    (s = 0 → 0 < t → voxelContribution t s = 1 - maxFloat) ∧
    (s = 0 → t < 0 → voxelContribution t s = 1 + maxFloat) := by
  refine ⟨fun hs => voxelContribution_of_ne_zero t s hs,
    fun hs ht => ?_, fun hs ht => ?_, fun hs ht => ?_⟩
  · subst hs; subst ht; norm_num [voxelContribution, trueDivide, nanToNum]
  · subst hs
    simp [voxelContribution, trueDivide, nanToNum, ht, ht.ne']
  · subst hs
    have hdiv : trueDivide t 0 = FVal.negInf := by
      simp [trueDivide, ht.ne, not_lt.mpr ht.le]
    rw [voxelContribution, hdiv]
    show 1 - -maxFloat = 1 + maxFloat
    ring

/-- Claim C1 witness: the amended theorem evaluated at concrete voxels,
one per hypothesis case. -/
theorem c1_witness :
    voxelContribution 6 3 = -1 ∧ voxelContribution 0 0 = 1 ∧
    voxelContribution 2 0 = 1 - maxFloat ∧
    voxelContribution (-2) 0 = 1 + maxFloat := by
  refine ⟨?_, ?_, ?_, ?_⟩
  · have h := (c1_contribution_amended 6 3).1 (by norm_num)
    rw [h]; norm_num
  · exact (c1_contribution_amended 0 0).2.1 rfl rfl
  · exact (c1_contribution_amended 2 0).2.2.1 rfl (by norm_num)
  · exact (c1_contribution_amended (-2) 0).2.2.2 rfl (by norm_num)

/-- Claim C6 counterexample: one cluster (label 1) whose only voxel has
original value 0; the leave-one-out value map is identical to the
original ([5, 0]), yet the contribution row is [1], not [0], because the
0/0 voxel contributes 1 - nan_to_num(NaN) = 1. -/
theorem c6_counterexample :
    jackknifeStudyRow [0, 1] [5, 0] [5, 0] = [1] ∧ (1 : ℚ) ≠ 0 := by
  constructor
  · have hc : clusterIdsOfLabels [0, 1] = [1] := by decide
    rw [jackknifeStudyRow, hc]
    norm_num [jackknifeContribution, clusterMean, selectedVals, voxelProps,
      voxelContribution, trueDivide, nanToNum, List.zip_cons_cons]
  · norm_num

/-- Claim C6 (amended): for every study whose leave-one-out re-fit
produces value-map values identical to the original value map and
nonzero over a cluster's voxels, Jackknife's contribution value for that
study and that cluster is 0. -/
theorem c6_identical_nonzero (labels : List ℕ) (temp stat : List ℚ) (cid : ℕ)
    (h : (labels.zip (temp.zip stat)).all
      (fun p => p.1 != cid || (decide (p.2.1 = p.2.2) && decide (p.2.2 ≠ 0))) = true) :
    jackknifeContribution labels stat temp cid = 0 := by
  unfold jackknifeContribution clusterMean
  have hall : ∀ x ∈ selectedVals labels (voxelProps temp stat) cid, x = 0 := by
    intro x hx
    unfold selectedVals at hx
    obtain ⟨p, hpf, hps⟩ := List.mem_map.mp hx
    have hpz := List.mem_filter.mp hpf
    have hcid : p.1 = cid := by simpa using hpz.2
    have hmemz : p ∈ labels.zip (List.zipWith voxelContribution temp stat) := by
      simpa [voxelProps] using hpz.1
    obtain ⟨a, b, hmem, hval⟩ := mem_zip_zipWith voxelContribution labels temp stat p hmemz
    have hp := List.all_eq_true.mp h (p.1, (a, b)) hmem
    simp only [hcid, bne_self_eq_false, Bool.false_or, Bool.and_eq_true,
      decide_eq_true_eq] at hp
    obtain ⟨hab, hbz⟩ := hp
    rw [← hps, hval, hab, voxelContribution_self b hbz]
  rw [List.sum_eq_zero hall, zero_div]

/-- Claim C6 witness: the amended theorem at a concrete cluster whose
voxels carry identical nonzero values before and after the re-fit. -/
theorem c6_witness : jackknifeContribution [0, 1] [5, 3] [5, 3] 1 = 0 :=
  c6_identical_nonzero [0, 1] [5, 3] [5, 3] 1 (by decide)

/-- Between integer voxel indices, Euclidean distance < 1 (equivalently
squared distance < 1) holds exactly when the two indices coincide. -/
theorem sqDist_lt_one_iff (v p : Vox) : sqDist v p < 1 ↔ v = p := by
  obtain ⟨v1, v2, v3⟩ := v
  obtain ⟨p1, p2, p3⟩ := p
  unfold sqDist
  dsimp only
  constructor
  · intro h
    have hn1 := sq_nonneg (v1 - p1)
    have hn2 := sq_nonneg (v2 - p2)
    have hn3 := sq_nonneg (v3 - p3)
    have h1 : (v1 - p1) ^ 2 = 0 := by nlinarith
    have h2 : (v2 - p2) ^ 2 = 0 := by nlinarith
    have h3 : (v3 - p3) ^ 2 = 0 := by nlinarith
    have e1 : v1 = p1 := sub_eq_zero.mp (sq_eq_zero_iff.mp h1)
    have e2 : v2 = p2 := sub_eq_zero.mp (sq_eq_zero_iff.mp h2)
    have e3 : v3 = p3 := sub_eq_zero.mp (sq_eq_zero_iff.mp h3)
    simp [e1, e2, e3]
  · intro h
    injection h with ha hbc
    injection hbc with hb hc
    subst ha; subst hb; subst hc
    norm_num

/-- Claim C2 counterexample: a peak at voxel (1, 0, 0) face-touches the
single cluster voxel at the origin (Euclidean distance exactly 1); the
claim's at-most-1 rule counts it, but the code's strict distance < 1
comparison does not. -/
theorem c2_counterexample :
    FocusCounter.transformStudy vcFloor coordsC2 "s1" labelsC2 = [0] ∧
    focusCounterStudyClaim vcFloor coordsC2 "s1" labelsC2 = [1] := by
  constructor
  · decide
  · decide

/-- Claim C2 (amended): for every study and cluster, FocusCounter's
per-cluster count equals the number of that study's peak voxel
coordinates whose Euclidean distance to some voxel of the cluster is
strictly less than 1 — which, on the integer voxel grid, means the peaks
that coincide with a cluster voxel; a peak that merely face-touches the
cluster (distance exactly 1) is not counted. -/
theorem c2_count_amended (toVoxFn : World → Vox) (coordinates : List FocusRow)
    (expid : String) (labelArr : List (Vox × ℕ)) :
    FocusCounter.transformStudy toVoxFn coordinates expid labelArr =
      (clusterIdsOfLabels (labelArr.map Prod.snd)).map (fun c =>
        ((coordinates.filter (fun r => r.id == expid)).map
          (fun r => toVoxFn (r.x, r.y, r.z))).countP
          (fun p => ((labelArr.filter (fun q => q.2 == c)).map Prod.fst).contains p)) := by
  unfold FocusCounter.transformStudy
  apply List.map_congr_left
  intro c _
  apply List.countP_congr
  intro p _
  have hfun : (fun v => decide (sqDist v p < 1)) = (fun v : Vox => p == v) := by
    funext v
    rw [Bool.eq_iff_iff, decide_eq_true_eq, beq_iff_eq]
    exact (sqDist_lt_one_iff v p).trans eq_comm
  rw [List.contains_eq_any_beq, hfun]

/-- Claim C9: FocusCounter's per-cluster counts are non-negative
integers, and for a study with zero peak coordinates every cluster's
count is 0 (the peak list is empty, so every countP is 0). -/
theorem c9_focus_counts (toVoxFn : World → Vox) (coordinates : List FocusRow)
    (expid : String) (labelArr : List (Vox × ℕ)) :
    ((FocusCounter.transformStudy toVoxFn coordinates expid labelArr).all
      (fun c => decide (0 ≤ c)) = true) ∧
    (coordinates.all (fun r => r.id != expid) = true →
      (FocusCounter.transformStudy toVoxFn coordinates expid labelArr).all
        (fun c => c == 0) = true) := by
  constructor
  · simp [List.all_eq_true]
  · intro h
    have hfil : coordinates.filter (fun r => r.id == expid) = [] := by
      rw [List.filter_eq_nil_iff]
      intro r hr
      have hr2 := List.all_eq_true.mp h r hr
      simpa using hr2
    unfold FocusCounter.transformStudy
    rw [hfil]
    simp [List.all_eq_true]

/-- Claim C9 witness: a study with no coordinate rows gets count 0 for
the concrete one-cluster label volume. -/
theorem c9_witness :
    ((FocusCounter.transformStudy vcFloor
        [{ id := "other", x := 0, y := 0, z := 0 }] "s1" labelsC2).all
      (fun c => decide (0 ≤ c)) = true) ∧
    ((FocusCounter.transformStudy vcFloor
        [{ id := "other", x := 0, y := 0, z := 0 }] "s1" labelsC2).all
      (fun c => c == 0) = true) := by
  have h := c9_focus_counts vcFloor
    [{ id := "other", x := 0, y := 0, z := 0 }] "s1" labelsC2
  exact ⟨h.1, h.2 (by decide)⟩

theorem string_data_append (a b : String) : (a ++ b).data = a.data ++ b.data :=
  rfl

theorem occursIn_refl {α : Type} (xs : List α) : occursIn xs xs :=
  ⟨[], [], by simp⟩

theorem occursIn_append_left {α : Type} (xs ys zs : List α)
    (h : occursIn xs ys) : occursIn xs (zs ++ ys) := by
  obtain ⟨s, t, rfl⟩ := h
  exact ⟨zs ++ s, t, by simp⟩

theorem occursIn_append_right {α : Type} (xs ys zs : List α)
    (h : occursIn xs ys) : occursIn xs (ys ++ zs) := by
  obtain ⟨s, t, rfl⟩ := h
  exact ⟨s, t ++ zs, by simp⟩

/-- Every member of a list of strings occurs contiguously inside their
", "-join. -/
theorem mem_commaJoin_occursIn (m : String) (names : List String)
    (h : m ∈ names) : occursIn m.data (commaJoin names).data := by
  induction names with
  | nil => simp at h
  | cons n rest ih =>
    cases List.mem_cons.mp h with
    | inl he =>
      subst he
      cases rest with
      | nil => exact occursIn_refl m.data
      | cons r rs =>
        refine ⟨[], (", " ++ commaJoin (r :: rs)).data, ?_⟩
        show (m ++ ", " ++ commaJoin (r :: rs)).data = _
        rw [string_data_append, string_data_append, string_data_append]
        simp
    | inr hm =>
      cases rest with
      | nil => simp at hm
      | cons r rs =>
        have hoc := ih hm
        show occursIn m.data (n ++ ", " ++ commaJoin (r :: rs)).data
        rw [string_data_append]
        exact occursIn_append_left _ _ _ hoc

/-- The missing-target-map error message contains each available map
name, wrapped in single quotes, as a contiguous substring. -/
theorem targetNotPresentMsg_mentions (target : String) (names : List String)
    (m : String) (hm : m ∈ names) :
    occursIn (quoteName m).data (targetNotPresentMsg target names).data := by
  have hq : quoteName m ∈ names.map quoteName := List.mem_map_of_mem _ hm
  have h1 := mem_commaJoin_occursIn (quoteName m) (names.map quoteName) hq
  unfold targetNotPresentMsg
  rw [string_data_append, string_data_append]
  exact occursIn_append_right _ _ _ (occursIn_append_left _ _ _ h1)

/-- Claim C3 counterexample: with an estimator lacking a retained
dataset, both transforms fail, synchronously, but with an
AttributeError, not the ConfigurationError kind the claim names. -/
theorem c3_counterexample :
    errIsConfiguration (Jackknife.transform cfgZ extract0 refit0 resultNoDs) = false ∧
    errIsConfiguration (FocusCounter.transform fcfgZ extractF0 vcFloor resultNoDs) = false ∧
    Jackknife.transform cfgZ extract0 refit0 resultNoDs =
      Except.error (DiagError.attributeError jkAttrErrorMsg) ∧
    FocusCounter.transform fcfgZ extractF0 vcFloor resultNoDs =
      Except.error (DiagError.attributeError jkAttrErrorMsg) :=
  ⟨rfl, rfl, rfl, rfl⟩

/-- Claim C3 (amended): for every result whose estimator lacks a
retained fitting dataset, Jackknife.transform and FocusCounter.transform
fail with an AttributeError (not a ConfigurationError), raised before
any per-study work: the outcome is the same for every cluster extractor
and every leave-one-out refit oracle. -/
theorem c3_attribute_error_amended (j : Jackknife) (f : FocusCounter)
    (extract : List ℚ → ℚ → Bool → ℕ × List (List ℕ))
    (refit : String → List ℚ)
    (extractF : List ℚ → ℚ → Bool → ℕ × List (List (Vox × ℕ)))
    (toVoxFn : World → Vox)
    (result : MetaResult) (h : result.estimator.dataset = none) :
    Jackknife.transform j extract refit result =
      Except.error (DiagError.attributeError jkAttrErrorMsg) ∧
    FocusCounter.transform f extractF toVoxFn result =
      Except.error (DiagError.attributeError jkAttrErrorMsg) := by
  refine ⟨?_, ?_⟩
  · unfold Jackknife.transform
    rw [h]
  · unfold FocusCounter.transform
    rw [h]

/-- Claim C3 witness: the amended theorem at a concrete result whose
estimator has no dataset. -/
theorem c3_witness :
    Jackknife.transform cfgAbsent extract0 refit0 resultNoDs =
      Except.error (DiagError.attributeError jkAttrErrorMsg) ∧
    FocusCounter.transform fcfgAbsent extractF0 vcFloor resultNoDs =
      Except.error (DiagError.attributeError jkAttrErrorMsg) :=
  c3_attribute_error_amended cfgAbsent fcfgAbsent extract0 refit0 extractF0
    vcFloor resultNoDs rfl

/-- Claim C4: when the configured target map name is absent from the
result's maps, both transforms fail with a ValueError whose message
enumerates the quoted names of the maps actually available, and the
outcome is independent of the cluster extractor and the refit oracle
(no per-study work informs it). -/
theorem c4_target_missing (j : Jackknife) (f : FocusCounter)
    (extract : List ℚ → ℚ → Bool → ℕ × List (List ℕ))
    (refit : String → List ℚ)
    (extractF : List ℚ → ℚ → Bool → ℕ × List (List (Vox × ℕ)))
    (toVoxFn : World → Vox)
    (result : MetaResult) (u : Unit)
    (hd : result.estimator.dataset = some u)
    (htj : List.lookup j.target_image result.maps = none)
    (htf : List.lookup f.target_image result.maps = none) :
    (Jackknife.transform j extract refit result =
      Except.error (DiagError.valueError
        (targetNotPresentMsg j.target_image (result.maps.map Prod.fst)))) ∧
    (FocusCounter.transform f extractF toVoxFn result =
      Except.error (DiagError.valueError
        (targetNotPresentMsg f.target_image (result.maps.map Prod.fst)))) ∧
    (∀ m ∈ result.maps.map Prod.fst,
      occursIn (quoteName m).data
        (targetNotPresentMsg j.target_image (result.maps.map Prod.fst)).data) ∧
    (∀ m ∈ result.maps.map Prod.fst,
      occursIn (quoteName m).data
        (targetNotPresentMsg f.target_image (result.maps.map Prod.fst)).data) := by
  refine ⟨?_, ?_, ?_, ?_⟩
  · unfold Jackknife.transform
    rw [hd, htj]
  · unfold FocusCounter.transform
    rw [hd, htf]
  · intro m hm
    exact targetNotPresentMsg_mentions j.target_image _ m hm
  · intro m hm
    exact targetNotPresentMsg_mentions f.target_image _ m hm

/-- Claim C4 witness: requesting the absent map name "absent" from a
result holding maps "z" and "stat" yields the enumerating ValueError,
and the quoted name of each available map occurs in the message. -/
theorem c4_witness :
    (Jackknife.transform cfgAbsent extract0 refit0 resultMaps =
      Except.error (DiagError.valueError
        (targetNotPresentMsg "absent" ["z", "stat"]))) ∧
    occursIn (quoteName "z").data
      (targetNotPresentMsg "absent" ["z", "stat"]).data ∧
    occursIn (quoteName "stat").data
      (targetNotPresentMsg "absent" ["z", "stat"]).data := by
  have h := c4_target_missing cfgAbsent fcfgAbsent extract0 refit0 extractF0
    vcFloor resultMaps () rfl rfl rfl
  exact ⟨h.1, h.2.2.1 "z" (by simp [resultMaps]),
    h.2.2.1 "stat" (by simp [resultMaps])⟩

/-- Claim C5: when the cluster extractor reports zero clusters,
Jackknife.transform returns normally with a contribution table having
exactly one row per retained study id and zero data columns, a clusters
table with zero rows, and the "No clusters found" warning. -/
theorem c5_zero_clusters (j : Jackknife)
    (extract : List ℚ → ℚ → Bool → ℕ × List (List ℕ))
    (refit : String → List ℚ) (result : MetaResult) (u : Unit) (arr : List ℚ)
    (hd : result.estimator.dataset = some u)
    (hm : List.lookup j.target_image result.maps = some arr)
    (hz : (extract arr (j.voxel_thresh.getD 0) (arr.any (fun v => v < 0))).1 = 0) :
    (Jackknife.transform j extract refit result).toOption.map
      (fun o => (o.contribRows.map Prod.fst, o.contribCols, o.clustersRows, o.warnings)) =
    some (result.estimator.inputIds, ([] : List String), 0, ["No clusters found"]) := by
  unfold Jackknife.transform
  rw [hd, hm]
  simp only [hz]
  simp only [Except.toOption, List.map_map, Option.map_some]
  have hcomp : (Prod.fst ∘ fun s : String => (s, ([] : List ℚ))) = id := rfl
  simp [hcomp]

/-- Claim C5 witness: the theorem at a concrete result with two retained
studies and an extractor reporting zero clusters. -/
theorem c5_witness :
    (Jackknife.transform cfgZ extract0 refit0 resultZero).toOption.map
      (fun o => (o.contribRows.map Prod.fst, o.contribCols, o.clustersRows, o.warnings)) =
    some (["s1", "s2"], ([] : List String), 0, ["No clusters found"]) :=
  c5_zero_clusters cfgZ extract0 refit0 resultZero () [0] rfl rfl rfl

/-- Claim C7: FocusFilter.transform is idempotent — with the filter's
mask fixed (and, when the filter defers to the Dataset's masker, the
masker untouched by the first application), filtering twice yields
exactly the coordinate rows of filtering once. -/
theorem c7_focusfilter_idempotent (f : FocusFilter) (ds : Dataset) :
    (f.transform (f.transform ds)).coordinates = (f.transform ds).coordinates := by
  unfold FocusFilter.transform
  dsimp only
  rw [List.filter_filter]
  simp

/-- Claim C8: FocusFilter.transform changes only the coordinates table:
study ids, image paths and metadata are returned unchanged, and every
study of the input — including one whose coordinate rows are all
removed — is still present afterwards. -/
theorem c8_focusfilter_frame (f : FocusFilter) (ds : Dataset) :
    (f.transform ds).ids = ds.ids ∧
    (f.transform ds).images = ds.images ∧
    (f.transform ds).metadata = ds.metadata ∧
    (∀ s ∈ ds.ids, s ∈ (f.transform ds).ids) := by
  exact ⟨rfl, rfl, rfl, fun s hs => hs⟩

/-- Claim C8 witness: a Dataset whose single study has its only
coordinate row removed by the filter still lists that study, with images
and metadata intact. -/
theorem c8_witness :
    (ffEx.transform dsEx).ids = ["s1"] ∧
    (ffEx.transform dsEx).images = [("s1", "img1.nii.gz")] ∧
    "s1" ∈ (ffEx.transform dsEx).ids ∧
    (ffEx.transform dsEx).coordinates = [] := by
  have h := c8_focusfilter_frame ffEx dsEx
  exact ⟨h.1, h.2.1, h.2.2.2 "s1" (by decide), by decide⟩

/-- Claim C10: under explicit reference semantics,
FocusFilter.transform returns the very reference it was given — not a
copy — with that reference's Dataset now holding the filtered
coordinates (every out-of-mask row of the caller's original Dataset is
gone after the call), while every other reference is untouched. -/
theorem c10_in_place (f : FocusFilter) (r : ℕ) (store : ℕ → Dataset) :
    ((focusFilterTransformRef f r store).1 = r) ∧
    ((focusFilterTransformRef f r store).2 r = f.transform (store r)) ∧
    (∀ q, q ≠ r → (focusFilterTransformRef f r store).2 q = store q) ∧
    (∀ row ∈ (store r).coordinates,
      keepCoord (f.masker.getD (store r).masker) row = false →
      row ∉ ((focusFilterTransformRef f r store).2 r).coordinates) := by
  refine ⟨rfl, by simp [focusFilterTransformRef],
    fun q hq => by simp [focusFilterTransformRef, hq], ?_⟩
  intro row hrow hkeep hmem
  have hmem2 : row ∈ (store r).coordinates.filter
      (keepCoord (f.masker.getD (store r).masker)) := by
    simpa [focusFilterTransformRef, FocusFilter.transform] using hmem
  have h2 := (List.mem_filter.mp hmem2).2
  rw [hkeep] at h2
  exact Bool.false_ne_true h2

/-- Claim C10 witness: the reference model at a concrete store — the
returned reference is the input reference, and the out-of-mask row is no
longer in the stored Dataset after the call. -/
theorem c10_witness :
    ((focusFilterTransformRef ffEx 0 (fun _ => dsEx)).1 = 0) ∧
    rowOut ∉ ((focusFilterTransformRef ffEx 0 (fun _ => dsEx)).2 0).coordinates := by
  have h := c10_in_place ffEx 0 (fun _ => dsEx)
  exact ⟨h.1, h.2.2.2 rowOut (by decide) (by decide)⟩

end NiMARE
